import Mathlib

/-
  Verification development for the request-routing and
  document-context-resolution layer of the repository:
  shallow embedding of python_backend/agent_factory.py,
  python_backend/document_handler.py and
  python_backend/routers/agent_router.py, followed by theorems
  settling the behavioural claims about that layer.
-/

namespace Resuming

/-! ### Agent factory (python_backend/agent_factory.py)

An Agent value models an openai_agents.Agent instance.  Python object
identity is modelled by the uid field: each construction stamps the
agent with the value of a global construction counter, so two Agent
values are the same runtime object exactly when they are equal here. -/

/-- Instruction block for the analyzer agent (agent_factory.py lines 23-40). -/
def DOCUMENT_ANALYZER_INSTRUCTIONS : String :=
  "\nYou are a document analysis assistant that helps users understand, summarize, and extract insights from documents.\n\nYour capabilities:\n1. Summarize documents concisely\n2. Extract key information and insights\n3. Answer questions about the document content\n4. Identify main themes, topics, and arguments\n5. Analyze document structure and organization\n6. Detect tone, sentiment, and writing style\n\nGuidelines:\n- Always base your responses on the document content provided\n- When answering questions, cite specific parts of the document\n- If information isn\x27t in the document, clearly state that\n- Be objective in your analysis unless asked for opinions\n- Format your responses clearly with headings and bullet points when appropriate\n"

/-- Instruction block for the editor agent (agent_factory.py lines 42-60). -/
def DOCUMENT_EDITOR_INSTRUCTIONS : String :=
  "\nYou are a document editing assistant that helps users improve their documents.\n\nYour capabilities:\n1. Fix grammar, spelling, and punctuation errors\n2. Improve clarity, conciseness, and coherence\n3. Suggest better phrasing and word choices\n4. Restructure sentences and paragraphs for better flow\n5. Format documents according to style guidelines\n6. Adapt tone and style based on the document purpose\n\nGuidelines:\n- Preserve the original meaning and intent of the text\n- Explain significant changes you suggest\n- When possible, provide both the original and your suggested revision\n- Consider the document\x27s purpose and audience\n- Be specific in your recommendations\n- Focus on substantive improvements, not just surface-level edits\n"

/-- Instruction block for the creator agent (agent_factory.py lines 62-80). -/
def DOCUMENT_CREATOR_INSTRUCTIONS : String :=
  "\nYou are a document creation assistant that helps users generate new documents.\n\nYour capabilities:\n1. Draft documents based on user specifications\n2. Create outlines and structure for new documents\n3. Generate content for specific sections\n4. Write in different styles, tones, and formats\n5. Adapt content for different audiences and purposes\n6. Create templates for future use\n\nGuidelines:\n- Ask for clarification on document requirements if needed\n- Organize content logically with appropriate headings and structure\n- Tailor your writing to the specified audience and purpose\n- Provide explanations for your organizational choices when helpful\n- Be creative while staying within the user\x27s guidelines\n- Suggest improvements or alternatives when appropriate\n"

/-- Model of an openai_agents.Agent instance.  Tools are identified by
their names (the tool schemas are data irrelevant to the claims). -/
structure Agent where
  uid : Nat
  name : String
  model : String
  instructions : String
  tools : List String
deriving DecidableEq, Repr

/-- AgentFactory._create_analyzer_agent (lines 211-221); uid stamps identity. -/
def create_analyzer_agent (uid : Nat) : Agent :=
  { uid := uid, name := "document_analyzer", model := "gpt-4o",
    instructions := DOCUMENT_ANALYZER_INSTRUCTIONS,
    tools := ["summarize_document", "extract_key_points"] }

/-- AgentFactory._create_editor_agent (lines 223-233). -/
def create_editor_agent (uid : Nat) : Agent :=
  { uid := uid, name := "document_editor", model := "gpt-4o",
    instructions := DOCUMENT_EDITOR_INSTRUCTIONS,
    tools := ["edit_section"] }

/-- AgentFactory._create_creator_agent (lines 235-245). -/
def create_creator_agent (uid : Nat) : Agent :=
  { uid := uid, name := "document_creator", model := "gpt-4o",
    instructions := DOCUMENT_CREATOR_INSTRUCTIONS,
    tools := ["create_section"] }

/-- Association-list lookup, modelling Python dict lookup keyed by mode. -/
def alookup (m : String) : List (String × α) → Option α
  | [] => none
  | (k, v) :: t => if k = m then some v else alookup m t

/-- Remove every binding for a key. -/
def eraseKey (k : String) : List (String × α) → List (String × α)
  | [] => []
  | (k', v) :: t => if k' = k then eraseKey k t else (k', v) :: eraseKey k t

/-- State of the Python process as far as AgentFactory is concerned:
the class attribute _agents, the functools.lru_cache attached to
get_agent (most-recently-used first, maxsize 3, caching None results
too), and the number of Agent constructions performed so far. -/
structure FactoryState where
  agents : List (String × Agent)
  lru : List (String × Option Agent)
  constructions : Nat
deriving DecidableEq, Repr

/-- The state of a freshly imported module. -/
def initState : FactoryState := { agents := [], lru := [], constructions := 0 }

/-- On a cache hit, functools.lru_cache refreshes the recency of the key. -/
def lruTouch (k : String) (l : List (String × Option Agent)) :
    List (String × Option Agent) :=
  match alookup k l with
  | some v => (k, v) :: eraseKey k l
  | none => l

/-- On a cache miss, functools.lru_cache records the computed value as
most recent and evicts beyond maxsize = 3. -/
def lruInsert (k : String) (v : Option Agent)
    (l : List (String × Option Agent)) : List (String × Option Agent) :=
  ((k, v) :: eraseKey k l).take 3

/-- Body of AgentFactory.get_agent (lines 190-209): the wrapped function
that the lru_cache invokes on a miss.  Returns the result together with
the updated state.  Agent construction never raises in the source, so
the try/except around construction is the identity here. -/
def get_agent_body (mode : String) (s : FactoryState) :
    Option Agent × FactoryState :=
  match alookup mode s.agents with
  | some a => (some a, s)
  | none =>
    if mode = "analyze" then
      let a := create_analyzer_agent s.constructions
      (some a, { s with agents := (mode, a) :: s.agents,
                        constructions := s.constructions + 1 })
    else if mode = "edit" then
      let a := create_editor_agent s.constructions
      (some a, { s with agents := (mode, a) :: s.agents,
                        constructions := s.constructions + 1 })
    else if mode = "create" then
      let a := create_creator_agent s.constructions
      (some a, { s with agents := (mode, a) :: s.agents,
                        constructions := s.constructions + 1 })
    else
      (none, s)

/-- AgentFactory.get_agent as observed by callers: the lru_cache wrapper
(decorator at line 179) around the body.  The cache key is the mode
string (the cls argument is constant). -/
def get_agent (mode : String) (s : FactoryState) :
    Option Agent × FactoryState :=
  match alookup mode s.lru with
  | some v => (v, { s with lru := lruTouch mode s.lru })
  | none =>
    let r := get_agent_body mode s
    (r.1, { r.2 with lru := lruInsert mode r.1 r.2.lru })

/-- AgentFactory.reset_agents (lines 247-250): reassigns cls._agents to
an empty dict.  Nothing else is touched; in particular the lru_cache on
get_agent keeps its entries. -/
def reset_agents (s : FactoryState) : FactoryState :=
  { s with agents := [] }

/-- One externally visible factory operation. -/
inductive FOp
  | get (mode : String)
  | reset
deriving DecidableEq, Repr

/-- Execute one factory operation for its state effect. -/
def fstep (s : FactoryState) : FOp → FactoryState
  | .get m => (get_agent m s).2
  | .reset => reset_agents s

/-- Execute a sequence of factory operations from a state. -/
def runOps (s : FactoryState) (l : List FOp) : FactoryState :=
  l.foldl fstep s

/-- A state the process can actually be in: reached from the initial
state by some sequence of get_agent and reset_agents calls. -/
def ReachableF (s : FactoryState) : Prop :=
  ∃ l : List FOp, s = runOps initState l

/-! ### Document handler (python_backend/document_handler.py)

External collaborators (S3, PyMuPDF, python-docx, UTF-8 decoding, the
json parser, the model call) are modelled as fields of an environment
record; an Option result with value none models the collaborator
raising the exception that the surrounding source code handles. -/

/-- Raw file bytes. -/
def Bytes := List Nat
deriving DecidableEq, Repr

/-- ASCII lowering of one character, modelling str.lower on the ASCII
range (storage keys and content types are ASCII). -/
def lowerChar (c : Char) : Char :=
  if 65 ≤ c.toNat ∧ c.toNat ≤ 90 then Char.ofNat (c.toNat + 32) else c

/-- Python str.lower. -/
def pyLower (s : String) : String :=
  String.mk (s.toList.map lowerChar)

/-- Python str.endswith. -/
def pyEndsWith (s suf : String) : Bool :=
  List.isSuffixOf suf.toList s.toList

/-- Python membership test of a character in a string. -/
def pyContainsChar (s : String) (c : Char) : Bool :=
  s.toList.contains c

/-- Python str.split with a one-character separator. -/
def splitOnChar (sep : Char) (s : String) : List String :=
  (s.toList.foldr
    (fun c acc =>
      match acc with
      | cur :: rest => if c = sep then [] :: (cur :: rest)
                       else (c :: cur) :: rest
      | [] => [[c]])
    [[]]).map String.mk

/-- One value of a metadata mapping (string, integer, or Python None). -/
inductive MVal
  | s (v : String)
  | n (v : Nat)
  | null
deriving DecidableEq, Repr

/-- A metadata mapping, keys in insertion order. -/
def Metadata := List (String × MVal)
deriving DecidableEq, Repr

/-- A parsed JSON value, as produced by json.loads. -/
inductive Jv
  | str (s : String)
  | num (n : Int)
  | bool (b : Bool)
  | null
  | arr (xs : List Jv)
  | obj (kvs : List (String × Jv))

/-- Escape one character the way json.dumps does for the characters
exercised here (quote, backslash and common control characters). -/
def jsonEscapeChar (c : Char) : String :=
  if c = '"' then "\\\""
  else if c = '\\' then "\\\\"
  else if c = '\n' then "\\n"
  else if c = '\t' then "\\t"
  else if c = '\x0d' then "\\r"
  else String.singleton c

/-- Escape a string the way json.dumps does. -/
def jsonEscape (s : String) : String :=
  String.join (s.toList.map jsonEscapeChar)

/-- Two-space indentation prefix at a nesting depth. -/
def jsonIndent (depth : Nat) : String :=
  String.join (List.replicate depth "  ")

mutual

/-- json.dumps(v, indent=2) at a given nesting depth. -/
def jsonDumps2 (depth : Nat) : Jv → String
  | .str s => "\"" ++ jsonEscape s ++ "\""
  | .num n => toString n
  | .bool b => if b then "true" else "false"
  | .null => "null"
  | .arr [] => "[]"
  | .arr (x :: xs) =>
      "[\n" ++ jsonIndent (depth + 1) ++ jsonDumps2 (depth + 1) x ++
        jsonDumpsItems (depth + 1) xs ++ "\n" ++ jsonIndent depth ++ "]"
  | .obj [] => "\x7b\x7d"
  | .obj ((k, v) :: kvs) =>
      "\x7b\n" ++ jsonIndent (depth + 1) ++ "\"" ++ jsonEscape k ++ "\": " ++
        jsonDumps2 (depth + 1) v ++ jsonDumpsPairs (depth + 1) kvs ++
        "\n" ++ jsonIndent depth ++ "\x7d"

/-- Remaining array items, each preceded by a comma and a newline. -/
def jsonDumpsItems (depth : Nat) : List Jv → String
  | [] => ""
  | x :: xs =>
      ",\n" ++ jsonIndent depth ++ jsonDumps2 depth x ++ jsonDumpsItems depth xs

/-- Remaining object pairs, each preceded by a comma and a newline. -/
def jsonDumpsPairs (depth : Nat) : List (String × Jv) → String
  | [] => ""
  | (k, v) :: kvs =>
      ",\n" ++ jsonIndent depth ++ "\"" ++ jsonEscape k ++ "\": " ++
        jsonDumps2 depth v ++ jsonDumpsPairs depth kvs

end

/-- The textual form of the value stored under the content key of a
JSON document (the source returns that value unconverted; it is
rendered into the system prompt by an f-string at the use site). -/
def jvContentText : Jv → String
  | .str s => s
  | .num n => toString n
  | .bool b => if b then "True" else "False"
  | .null => "None"
  | v => jsonDumps2 0 v

/-- Result of s3_client.get_object: declared content type (default
empty string), body bytes, ContentLength, and LastModified already in
isoformat when present. -/
structure S3Object where
  contentType : String
  body : Bytes
  contentLength : Nat
  lastModified : Option String
deriving DecidableEq, Repr

/-- One message in OpenAI chat format, as built by the router. -/
structure ChatMessage where
  role : String
  content : String
deriving DecidableEq, Repr

/-- The external collaborators of the layer under verification.  Every
Option-result field models a call that may raise: none is the raising
outcome handled by the source code around the call. -/
structure Env where
  /-- Whether S3_BUCKET_NAME was configured at module load. -/
  bucketConfigured : Bool
  /-- s3_client.get_object by key; none models a ClientError. -/
  s3Get : String → Option S3Object
  /-- The page texts PyMuPDF extracts; none models fitz raising. -/
  fitzPdfPages : Bytes → Option (List String)
  /-- Paragraph texts and table cell texts (tables as rows of cells)
  from python-docx; none models docx raising. -/
  docxDoc : Bytes → Option (List String × List (List (List String)))
  /-- bytes.decode of UTF-8; none models UnicodeDecodeError. -/
  decodeUtf8 : Bytes → Option String
  /-- json.loads; none models a ValueError. -/
  jsonParse : String → Option Jv
  /-- agent.run on the formatted messages: final content, or the
  message of a raised exception. -/
  agentRun : List ChatMessage → Except String String
  /-- agent.run_stream on the formatted messages: the chunk contents
  delivered, then optionally the message of an exception raised
  mid-iteration after those chunks. -/
  agentRunStream : List ChatMessage → List String × Option String

/-- DocumentHandler.extract_text_from_pdf (lines 97-116): concatenates
page texts each followed by a blank line; on any error returns a fixed
placeholder string instead of raising. -/
def extract_text_from_pdf (env : Env) (pdf_content : Bytes) : String :=
  match env.fitzPdfPages pdf_content with
  | some pages => pages.foldl (fun acc p => acc ++ p ++ "\n\n") ""
  | none => "Error extracting text from PDF document"

/-- DocumentHandler.extract_text_from_docx (lines 118-144): joins
paragraphs with blank lines, then appends table rows (cells joined by
a pipe); on any error returns a fixed placeholder string. -/
def extract_text_from_docx (env : Env) (docx_content : Bytes) : String :=
  match env.docxDoc docx_content with
  | some (paras, tables) =>
      let tablesText := (tables.map (fun t =>
        t.map (fun row => String.intercalate " | " row))).flatten
      String.intercalate "\n\n" paras ++ "\n\n" ++
        String.intercalate "\n" tablesText
  | none => "Error extracting text from DOCX document"

/-- The filename the handler derives from a storage key
(document_handler.py line 85). -/
def derivedFilename (s3_key : String) : String :=
  if pyContainsChar s3_key '/' then
    (splitOnChar '/' s3_key).getLastD s3_key
  else s3_key

/-- The metadata mapping built for a successful S3 resolution
(document_handler.py lines 79-86). -/
def s3Metadata (s3_key : String) (obj : S3Object) : Metadata :=
  [("content_type", .s obj.contentType),
   ("size", .n obj.contentLength),
   ("last_modified", match obj.lastModified with
                     | some d => .s d
                     | none => .null),
   ("s3_key", .s s3_key),
   ("filename", .s (derivedFilename s3_key))]

/-- The text produced for a parsed JSON document (document_handler.py
lines 65-69): the content field when the parsed value is a mapping
with one, otherwise the whole value re-serialized by
json.dumps(..., indent=2). -/
def jsonValueText (v : Jv) : String :=
  match v with
  | .obj kvs =>
    match alookup "content" kvs with
    | some cv => jvContentText cv
    | none => jsonDumps2 0 (.obj kvs)
  | _ => jsonDumps2 0 v

/-- json.loads applied to the decoded body (line 64); a parse failure
raises past this point into the enclosing generic handler. -/
def jsonExtractParsed (env : Env) (s : String) : Option String :=
  match env.jsonParse s with
  | none => none
  | some v => some (jsonValueText v)

/-- The JSON branch of the extraction dispatch (lines 63-69); a decode
failure raises into the enclosing generic handler. -/
def jsonExtract (env : Env) (body : Bytes) : Option String :=
  match env.decodeUtf8 body with
  | none => none
  | some s => jsonExtractParsed env s

/-- Text extraction dispatch of get_document_from_s3 (lines 54-77).
Returns none exactly when the source reaches a return None, None for
this object: either the explicit fallback-decode failure or an
exception (decode or json parse) caught by the enclosing handler. -/
def s3ExtractText (env : Env) (s3_key : String) (obj : S3Object) :
    Option String :=
  let ct := obj.contentType
  if ct = "application/pdf" ∨ pyEndsWith (pyLower s3_key) ".pdf" then
    some (extract_text_from_pdf env obj.body)
  else if ct = "application/vnd.openxmlformats-officedocument.wordprocessingml.document"
      ∨ pyEndsWith (pyLower s3_key) ".docx" then
    some (extract_text_from_docx env obj.body)
  else if ct = "text/plain" ∨ pyEndsWith (pyLower s3_key) ".txt" then
    env.decodeUtf8 obj.body
  else if ct = "application/json" ∨ pyEndsWith (pyLower s3_key) ".json" then
    jsonExtract env obj.body
  else
    -- fallback best-effort decode (lines 70-77); both the explicit
    -- failure return and a raise yield the unresolved outcome
    env.decodeUtf8 obj.body

/-- The value returned for one fetched object: extracted text with
the metadata mapping, or the unresolved outcome (lines 54-95). -/
def s3ResultOf (env : Env) (s3_key : String) (obj : S3Object) :
    Option String × Option Metadata :=
  match s3ExtractText env s3_key obj with
  | none => (none, none)
  | some t => (some t, some (s3Metadata s3_key obj))

/-- DocumentHandler.get_document_from_s3 (lines 31-95). -/
def get_document_from_s3 (env : Env) (s3_key : String) :
    Option String × Option Metadata :=
  if env.bucketConfigured = true then
    match env.s3Get s3_key with
    | none => (none, none)
    | some obj => s3ResultOf env s3_key obj
  else (none, none)

/-- DocumentHandler.get_document_from_database (lines 146-170): a
placeholder that recognizes only the id test-document. -/
def get_document_from_database (document_id : String) :
    Option String × Option Metadata :=
  if document_id = "test-document" then
    (some "This is a sample document for testing purposes.\n\nIt contains multiple paragraphs and can be used to test the AI agent\x27s document handling capabilities.",
     some [("id", .s document_id), ("name", .s "Test Document"),
           ("type", .s "text")])
  else
    (none, none)

/-! ### Agent router (python_backend/routers/agent_router.py)

The two endpoints are embedded as functions of the environment, the
request, the factory state and the current clock (time.time in
milliseconds).  Each returns, besides its response, the updated
factory state and a trace of the collaborator calls it performed, so
that absence of side effects is a statement about the trace. -/

/-- An inbound chat message (router Message model, lines 24-27). -/
structure Message where
  role : String
  content : String
  id : Option String
deriving DecidableEq, Repr

/-- AgentMessageRequest (router lines 32-37). -/
structure AgentMessageRequest where
  messages : List Message
  document_id : Option String
  instruction : Option String
  mode : String
  stream : Bool
deriving DecidableEq, Repr

/-- Python truthiness of an optional string field: None and the empty
string are falsy. -/
def pyTruthy (o : Option String) : Bool :=
  o.getD "" ≠ ""

/-- A raised fastapi.HTTPException. -/
structure HttpError where
  status : Nat
  detail : String
deriving DecidableEq, Repr

/-- The resolved document context dict built by get_document_context. -/
structure DocumentContext where
  content : String
  metadata : Metadata
deriving DecidableEq, Repr

/-- One observable call to a collaborator. -/
inductive Eff
  | s3Call (key : String)
  | dbCall (id : String)
  | registryGet (mode : String)
  | modelCall
deriving DecidableEq, Repr

/-- get_document_context (router lines 44-63): S3 first, database only
when S3 produced no content, 404 when neither produced content. -/
def get_document_context (env : Env) (document_id : String) :
    Except HttpError DocumentContext × List Eff :=
  if document_id = "" then (.ok { content := "", metadata := [] }, [])
  else
    match get_document_from_s3 env document_id with
    | (some c, m) => (.ok { content := c, metadata := m.getD [] },
                      [.s3Call document_id])
    | (none, _) =>
      match get_document_from_database document_id with
      | (some c, m) => (.ok { content := c, metadata := m.getD [] },
                        [.s3Call document_id, .dbCall document_id])
      | (none, _) => (.error { status := 404,
                               detail := "Document not found: " ++
                                 document_id },
                      [.s3Call document_id, .dbCall document_id])

/-- The system instruction string assembled by both endpoints (router
lines 100-106 and 176-182): agent instructions, then the extra
instruction when truthy, then the document content whenever a document
context dict is present (it always carries a content key, so presence
of the dict alone triggers the injection, even for empty content). -/
def systemInstructionText (instructions : String)
    (instruction : Option String) (docCtx : Option DocumentContext) :
    String :=
  let s := instructions
  let s := if pyTruthy instruction then s ++ "\n\n" ++ instruction.getD ""
           else s
  match docCtx with
  | some d => s ++ "\n\nDocument content:\n" ++ d.content
  | none => s

/-- The message list handed to the agent (router lines 109-115 and
185-191): one system message followed by the request messages with
only role and content extracted. -/
def formatted_messages (instructions : String)
    (instruction : Option String) (docCtx : Option DocumentContext)
    (messages : List Message) : List ChatMessage :=
  { role := "system",
    content := systemInstructionText instructions instruction docCtx } ::
    messages.map (fun m => { role := m.role, content := m.content })

/-- The error text of the invalid-mode rejection, with the Python list
rendering of valid_modes. -/
def invalidModeDetail (mode : String) : String :=
  "Invalid mode: " ++ mode ++
    ". Must be one of [\x27analyze\x27, \x27edit\x27, \x27create\x27]"

/-- The synchronous response body (router AgentResponse, lines 39-41). -/
structure AgentResponse where
  message : Message
  document : Option Metadata
deriving DecidableEq, Repr

/-- The document-resolution step shared verbatim by both endpoints
(router lines 90-92 and 164-166): resolve only when the document_id
field is truthy; none models the empty dict the code starts from. -/
def requestDocument (env : Env) (req : AgentMessageRequest) :
    Option (Except HttpError DocumentContext) × List Eff :=
  if pyTruthy req.document_id then
    let r := get_document_context env (req.document_id.getD "")
    (some r.1, r.2)
  else (none, [])

/-- The document context the later code sees: the resolved dict, or
none for the initial empty dict. -/
def docCtxOf : Option (Except HttpError DocumentContext) →
    Option DocumentContext
  | some (.ok d) => some d
  | _ => none

/-- The rest of process_agent_message after document resolution
succeeded or was skipped (router lines 94-131). -/
def process_after_doc (env : Env) (req : AgentMessageRequest)
    (fs : FactoryState) (now : Nat) (docCtx : Option DocumentContext)
    (tr0 : List Eff) :
    Except HttpError AgentResponse × FactoryState × List Eff :=
  let ga := get_agent req.mode fs
  let tr := tr0 ++ [.registryGet req.mode]
  match ga.1 with
  | none => (.error { status := 500,
                      detail := "Failed to initialize agent for mode: " ++
                        req.mode }, ga.2, tr)
  | some agent =>
    let msgs := formatted_messages agent.instructions req.instruction
      docCtx req.messages
    match env.agentRun msgs with
    | .error e => (.error { status := 500,
                            detail := "Error processing message: " ++ e },
                   ga.2, tr ++ [.modelCall])
    | .ok content =>
      (.ok { message := { role := "assistant", content := content,
                          id := some (toString now) },
             document := docCtx.map (fun d => d.metadata) },
       ga.2, tr ++ [.modelCall])

/-- process_agent_message (router lines 66-138).  An HTTPException from
get_document_context is re-raised unchanged (lines 133-135). -/
def process_agent_message (env : Env) (req : AgentMessageRequest)
    (fs : FactoryState) (now : Nat) :
    Except HttpError AgentResponse × FactoryState × List Eff :=
  if ¬ (req.mode = "analyze" ∨ req.mode = "edit" ∨ req.mode = "create") then
    (.error { status := 400, detail := invalidModeDetail req.mode }, fs, [])
  else
    match requestDocument env req with
    | (some (.error e), tr) => (.error e, fs, tr)
    | (dr, tr) => process_after_doc env req fs now (docCtxOf dr) tr

/-- One server-sent frame of a streamed response: either a chunk or
completion event, or an error payload. -/
inductive Frame
  | event (id : String) (role : String) (content : String)
      (is_complete : Bool) (document : Option Metadata)
  | error (msg : String)
deriving DecidableEq, Repr

/-- The frames produced by the streaming loop over agent.run_stream
and the final yield (router lines 194-213): one event per chunk with
is_complete false, then the completion event, or an error frame when
the model stream raises after some chunks. -/
def stream_model_frames (env : Env) (req : AgentMessageRequest)
    (now : Nat) (docCtx : Option DocumentContext) (agent : Agent) :
    List Frame :=
  match (env.agentRunStream (formatted_messages agent.instructions
      req.instruction docCtx req.messages)).2 with
  | none =>
    (env.agentRunStream (formatted_messages agent.instructions
        req.instruction docCtx req.messages)).1.map
      (fun c => Frame.event (toString now) "assistant" c false none) ++
    [Frame.event (toString now) "assistant" "" true
      (docCtx.map (fun d => d.metadata))]
  | some e =>
    (env.agentRunStream (formatted_messages agent.instructions
        req.instruction docCtx req.messages)).1.map
      (fun c => Frame.event (toString now) "assistant" c false none) ++
    [Frame.error e]

/-- The rest of the streaming generator after document resolution
succeeded or was skipped (router lines 168-213). -/
def stream_after_doc (env : Env) (req : AgentMessageRequest)
    (fs : FactoryState) (now : Nat) (docCtx : Option DocumentContext)
    (tr0 : List Eff) : List Frame × FactoryState × List Eff :=
  match (get_agent req.mode fs).1 with
  | none => ([.error ("Failed to initialize agent for mode: " ++
               req.mode)], (get_agent req.mode fs).2,
             tr0 ++ [.registryGet req.mode])
  | some agent =>
    (stream_model_frames env req now docCtx agent,
     (get_agent req.mode fs).2,
     (tr0 ++ [.registryGet req.mode]) ++ [.modelCall])

/-- The generator inside stream_agent_message (router lines 151-218):
the frame sequence it yields, plus factory state and call trace.  The
HTTPException raised by get_document_context is caught by the generic
handler at line 215 and rendered by str(). -/
def stream_generate (env : Env) (req : AgentMessageRequest)
    (fs : FactoryState) (now : Nat) :
    List Frame × FactoryState × List Eff :=
  if ¬ (req.mode = "analyze" ∨ req.mode = "edit" ∨ req.mode = "create") then
    ([.error (invalidModeDetail req.mode)], fs, [])
  else
    match requestDocument env req with
    | (some (.error e), tr) =>
      ([.error (toString e.status ++ ": " ++ e.detail)], fs, tr)
    | (dr, tr) => stream_after_doc env req fs now (docCtxOf dr) tr

/-- The HTTP response of the streaming endpoint. -/
structure StreamResponse where
  status : Nat
  media_type : String
  frames : List Frame
deriving DecidableEq, Repr

/-- stream_agent_message (router lines 140-220): wraps the generator in
a StreamingResponse, whose status code is the Starlette default 200. -/
def stream_agent_message (env : Env) (req : AgentMessageRequest)
    (fs : FactoryState) (now : Nat) :
    StreamResponse × FactoryState × List Eff :=
  ({ status := 200, media_type := "text/event-stream",
     frames := (stream_generate env req fs now).1 },
   (stream_generate env req fs now).2.1,
   (stream_generate env req fs now).2.2)

/-! ### Lemmas about the factory cache -/

theorem alookup_eraseKey_self (k : String) (l : List (String × α)) :
    alookup k (eraseKey k l) = none := by
  induction l with
  | nil => rfl
  | cons p t ih =>
    obtain ⟨k', v⟩ := p
    by_cases h : k' = k
    · simpa [eraseKey, h] using ih
    · simp [eraseKey, h, alookup, ih]

theorem alookup_eraseKey_ne (k m : String) (l : List (String × α))
    (h : m ≠ k) : alookup m (eraseKey k l) = alookup m l := by
  induction l with
  | nil => rfl
  | cons p t ih =>
    obtain ⟨k', v⟩ := p
    by_cases h1 : k' = k
    · subst h1
      simp [eraseKey, alookup, Ne.symm h, ih]
    · by_cases h2 : k' = m <;> simp [eraseKey, alookup, h1, h2, ih, h]

theorem alookup_take (m : String) (l : List (String × α)) (n : Nat)
    (v : α) (h : alookup m (l.take n) = some v) : alookup m l = some v := by
  induction l generalizing n with
  | nil => simp [alookup] at h
  | cons p t ih =>
    obtain ⟨k, w⟩ := p
    cases n with
    | zero => simp [alookup] at h
    | succ n =>
      rw [List.take_succ_cons] at h
      by_cases hk : k = m
      · simpa [alookup, hk] using h
      · rw [alookup, if_neg hk] at h ⊢
        exact ih n h

theorem alookup_lruTouch (k m : String) (l : List (String × Option Agent)) :
    alookup m (lruTouch k l) = alookup m l := by
  unfold lruTouch
  cases h : alookup k l with
  | none => rfl
  | some v =>
    by_cases hkm : k = m
    · subst hkm
      simp [alookup, h]
    · simp [alookup, hkm, alookup_eraseKey_ne k m l (Ne.symm hkm)]

theorem alookup_lruInsert_self (k : String) (v : Option Agent)
    (l : List (String × Option Agent)) :
    alookup k (lruInsert k v l) = some v := by
  unfold lruInsert
  rw [List.take_succ_cons]
  simp [alookup]

theorem alookup_lruInsert_some (k m : String) (w v : Option Agent)
    (l : List (String × Option Agent))
    (h : alookup m (lruInsert k w l) = some v) :
    (m = k ∧ v = w) ∨ alookup m l = some v := by
  unfold lruInsert at h
  have h' := alookup_take m _ 3 v h
  by_cases hk : k = m
  · subst hk
    simp [alookup] at h'
    exact Or.inl ⟨rfl, h'.symm⟩
  · rw [alookup, if_neg hk] at h'
    rw [alookup_eraseKey_ne k m l (Ne.symm hk)] at h'
    exact Or.inr h'

theorem get_agent_body_lru (mode : String) (s : FactoryState) :
    (get_agent_body mode s).2.lru = s.lru := by
  unfold get_agent_body
  cases alookup mode s.agents
  · split_ifs <;> rfl
  · rfl

theorem get_agent_body_agents_ne (mode m : String) (s : FactoryState)
    (hne : m ≠ mode) :
    alookup m (get_agent_body mode s).2.agents = alookup m s.agents := by
  unfold get_agent_body
  cases alookup mode s.agents
  · split_ifs <;> simp [alookup, Ne.symm hne]
  · rfl

theorem get_agent_body_invalid (mode : String) (s : FactoryState)
    (h1 : mode ≠ "analyze") (h2 : mode ≠ "edit") (h3 : mode ≠ "create")
    (h0 : alookup mode s.agents = none) :
    get_agent_body mode s = (none, s) := by
  unfold get_agent_body
  rw [h0]
  simp [h1, h2, h3]

theorem get_agent_hit (mode : String) (s : FactoryState) (v : Option Agent)
    (h : alookup mode s.lru = some v) :
    get_agent mode s = (v, { s with lru := lruTouch mode s.lru }) := by
  unfold get_agent
  rw [h]

theorem get_agent_miss (mode : String) (s : FactoryState)
    (h : alookup mode s.lru = none) :
    get_agent mode s = ((get_agent_body mode s).1,
      { agents := (get_agent_body mode s).2.agents,
        lru := lruInsert mode (get_agent_body mode s).1
          (get_agent_body mode s).2.lru,
        constructions := (get_agent_body mode s).2.constructions }) := by
  unfold get_agent
  rw [h]

/-- Invariant of every reachable factory state: unrecognized modes are
bound neither in the _agents dict nor (to an agent) in the lru cache. -/
def FInv (s : FactoryState) : Prop :=
  ∀ m : String, m ≠ "analyze" → m ≠ "edit" → m ≠ "create" →
    alookup m s.agents = none ∧
    (alookup m s.lru = none ∨ alookup m s.lru = some none)

theorem finv_init : FInv initState := by
  intro m _ _ _
  exact ⟨rfl, Or.inl rfl⟩

theorem finv_get (s : FactoryState) (mode : String) (h : FInv s) :
    FInv (get_agent mode s).2 := by
  intro m hm1 hm2 hm3
  obtain ⟨ha, hl⟩ := h m hm1 hm2 hm3
  cases hlu : alookup mode s.lru with
  | some v =>
    rw [get_agent_hit mode s v hlu]
    exact ⟨ha, by rw [alookup_lruTouch]; exact hl⟩
  | none =>
    rw [get_agent_miss mode s hlu]
    by_cases hmm : m = mode
    · subst hmm
      have hbody := get_agent_body_invalid m s hm1 hm2 hm3 ha
      rw [hbody]
      exact ⟨ha, Or.inr (alookup_lruInsert_self m none s.lru)⟩
    · refine ⟨?_, ?_⟩
      · show alookup m (get_agent_body mode s).2.agents = none
        rw [get_agent_body_agents_ne mode m s hmm]
        exact ha
      · cases hx : alookup m (lruInsert mode (get_agent_body mode s).1
          (get_agent_body mode s).2.lru) with
        | none => exact Or.inl rfl
        | some v =>
          rcases alookup_lruInsert_some mode m _ v _ hx with ⟨he, _⟩ | hrest
          · exact absurd he hmm
          · rw [get_agent_body_lru] at hrest
            rcases hl with hl | hl
            · rw [hl] at hrest; cases hrest
            · rw [hl] at hrest
              obtain rfl : v = none := (Option.some_inj.mp hrest).symm
              exact Or.inr rfl

theorem finv_reset (s : FactoryState) (h : FInv s) :
    FInv (reset_agents s) := by
  intro m hm1 hm2 hm3
  exact ⟨rfl, (h m hm1 hm2 hm3).2⟩

theorem finv_fstep (s : FactoryState) (o : FOp) (h : FInv s) :
    FInv (fstep s o) := by
  cases o with
  | get mode => exact finv_get s mode h
  | reset => exact finv_reset s h

theorem finv_runOps (l : List FOp) (s : FactoryState) (h : FInv s) :
    FInv (runOps s l) := by
  induction l generalizing s with
  | nil => exact h
  | cons o t ih => exact ih (fstep s o) (finv_fstep s o h)

theorem finv_reachable (s : FactoryState) (h : ReachableF s) : FInv s := by
  obtain ⟨l, rfl⟩ := h
  exact finv_runOps l initState finv_init

theorem get_agent_invalid_of_finv (s : FactoryState) (mode : String)
    (h : FInv s) (h1 : mode ≠ "analyze") (h2 : mode ≠ "edit")
    (h3 : mode ≠ "create") :
    (get_agent mode s).1 = none ∧
    (get_agent mode s).2.constructions = s.constructions := by
  obtain ⟨ha, hl⟩ := h mode h1 h2 h3
  rcases hl with hl | hl
  · rw [get_agent_miss mode s hl, get_agent_body_invalid mode s h1 h2 h3 ha]
    exact ⟨rfl, rfl⟩
  · rw [get_agent_hit mode s none hl]
    exact ⟨rfl, rfl⟩

/-! ### Claims C1 and C2 -/

/-- Claim C1 (code bug, evaluated at the failing input): after
get_agent for mode analyze and then reset_agents, the next get_agent
for analyze performs no further construction (the count stays at one)
and returns the stale agent memoized by the lru_cache decorator, which
reset_agents never clears.  The repository test test_reset_agents
asserts two constructions for this very sequence, so the code
contradicts its own test suite. -/
theorem c1_reset_then_get_serves_stale_agent :
    (get_agent "analyze"
      (reset_agents (get_agent "analyze" initState).2)).2.constructions = 1 ∧
    (get_agent "analyze"
      (reset_agents (get_agent "analyze" initState).2)).1
      = (get_agent "analyze" initState).1 ∧
    (get_agent "analyze" initState).1.isSome = true := by
  exact ⟨rfl, rfl, rfl⟩

/-- Claim C2: for each mode in the valid set, two successive get_agent
calls on a fresh registry return the identical cached agent instance
with exactly one construction across the two calls; for every mode
outside the set and every reachable registry state, get_agent returns
none and performs no construction. -/
theorem c2_get_agent_caching :
    (∀ mode : String,
       mode = "analyze" ∨ mode = "edit" ∨ mode = "create" →
       (get_agent mode initState).1.isSome = true ∧
       (get_agent mode (get_agent mode initState).2).1
         = (get_agent mode initState).1 ∧
       (get_agent mode (get_agent mode initState).2).2.constructions = 1) ∧
    (∀ (mode : String) (s : FactoryState), ReachableF s →
       mode ≠ "analyze" → mode ≠ "edit" → mode ≠ "create" →
       (get_agent mode s).1 = none ∧
       (get_agent mode s).2.constructions = s.constructions) := by
  constructor
  · intro mode hmode
    rcases hmode with rfl | rfl | rfl
    · exact ⟨rfl, rfl, rfl⟩
    · exact ⟨rfl, rfl, rfl⟩
    · exact ⟨rfl, rfl, rfl⟩
  · intro mode s hs h1 h2 h3
    exact get_agent_invalid_of_finv s mode (finv_reachable s hs) h1 h2 h3

/-- Witness for claim C2 at mode analyze and at the unrecognized mode
bogus in the initial (reachable) state. -/
theorem c2_get_agent_caching_witness :
    ((get_agent "analyze" initState).1.isSome = true ∧
     (get_agent "analyze" (get_agent "analyze" initState).2).1
       = (get_agent "analyze" initState).1 ∧
     (get_agent "analyze" (get_agent "analyze" initState).2).2.constructions
       = 1) ∧
    (get_agent "bogus" initState).1 = none ∧
    (get_agent "bogus" initState).2.constructions
      = initState.constructions := by
  obtain ⟨hvalid, hinvalid⟩ := c2_get_agent_caching
  obtain ⟨d, e⟩ := hinvalid "bogus" initState ⟨[], rfl⟩
    (by decide) (by decide) (by decide)
  exact ⟨hvalid "analyze" (Or.inl rfl), d, e⟩

/-! ### Concrete fixtures used by witnesses and counterexamples -/

/-- A baseline environment: every storage collaborator fails, the
model call succeeds, the streaming call delivers one chunk. -/
def testEnv : Env :=
  { bucketConfigured := true,
    s3Get := fun _ => none,
    fitzPdfPages := fun _ => none,
    docxDoc := fun _ => none,
    decodeUtf8 := fun _ => none,
    jsonParse := fun _ => none,
    agentRun := fun _ => .ok "Corrected text.",
    agentRunStream := fun _ => (["Hello"], none) }

/-- A request with an unrecognized mode. -/
def reqBogus : AgentMessageRequest :=
  { messages := [{ role := "user", content := "hi", id := none }],
    document_id := none, instruction := none, mode := "bogus",
    stream := false }

/-- A well-formed edit request without a document. -/
def reqEdit : AgentMessageRequest :=
  { messages := [{ role := "user", content := "Fix grammar", id := none }],
    document_id := none, instruction := none, mode := "edit",
    stream := true }

/-- A plain-text object stored under the key a.txt. -/
def objTxt : S3Object :=
  { contentType := "text/plain", body := [104, 105], contentLength := 2,
    lastModified := some "2024-01-01T00:00:00" }

/-- An environment whose S3 holds objTxt under a.txt and decodes it. -/
def envTxt : Env :=
  { testEnv with
    s3Get := fun k => if k = "a.txt" then some objTxt else none,
    decodeUtf8 := fun b => if b = ([104, 105] : List Nat) then some "hi"
                           else none }

/-- A PDF object whose extraction will fail in testEnv. -/
def objPdf : S3Object :=
  { contentType := "application/pdf", body := [1, 2], contentLength := 2,
    lastModified := none }

/-- An environment whose S3 holds objPdf under doc.pdf, with PyMuPDF
raising on it. -/
def envPdf : Env :=
  { testEnv with s3Get := fun k => if k = "doc.pdf" then some objPdf
                                   else none }

/-- Two prior user messages. -/
def msgsAB : List Message :=
  [{ role := "user", content := "a", id := none },
   { role := "user", content := "b", id := none }]

/-! ### Claim C3 -/

/-- Claim C3 (amended): a request whose mode is outside the valid set
is rejected before any side effect by both endpoints: the synchronous
endpoint with a 400 validation error, the streaming endpoint by
emitting a single error frame inside a 200 streaming response; in
both cases the call trace is empty (no document backend call, no
registry lookup) and the factory state is unchanged. -/
theorem c3_invalid_mode_rejected_before_side_effects (env : Env)
    (req : AgentMessageRequest) (fs : FactoryState) (now : Nat)
    (h : ¬ (req.mode = "analyze" ∨ req.mode = "edit" ∨
            req.mode = "create")) :
    process_agent_message env req fs now =
      (.error { status := 400, detail := invalidModeDetail req.mode },
       fs, []) ∧
    stream_agent_message env req fs now =
      ({ status := 200, media_type := "text/event-stream",
         frames := [.error (invalidModeDetail req.mode)] }, fs, []) := by
  constructor
  · unfold process_agent_message
    rw [if_pos h]
  · unfold stream_agent_message stream_generate
    rw [if_pos h]

/-- Witness for claim C3 at a concrete bogus-mode request. -/
theorem c3_invalid_mode_witness :
    process_agent_message testEnv reqBogus initState 0 =
      (.error { status := 400, detail := invalidModeDetail "bogus" },
       initState, []) ∧
    stream_agent_message testEnv reqBogus initState 0 =
      ({ status := 200, media_type := "text/event-stream",
         frames := [.error (invalidModeDetail "bogus")] },
       initState, []) :=
  c3_invalid_mode_rejected_before_side_effects testEnv reqBogus initState 0
    (by decide)

/-- Counterexample to claim C3 as stated: for the streaming endpoint
the rejection of an invalid mode is not a 400-class response; the HTTP
status is the default 200 and the validation failure is only an error
frame in the stream body (no side effect does occur). -/
theorem c3_stream_invalid_mode_is_not_400 :
    (stream_agent_message testEnv reqBogus initState 0).1.status = 200 ∧
    (stream_agent_message testEnv reqBogus initState 0).1.status ≠ 400 ∧
    (stream_agent_message testEnv reqBogus initState 0).1.frames
      = [.error (invalidModeDetail "bogus")] ∧
    (stream_agent_message testEnv reqBogus initState 0).2.2 = [] := by
  exact ⟨rfl, by decide, rfl, rfl⟩

/-! ### Claim C4 -/

/-- Claim C4: document resolution consults S3 first; the database only
when S3 produced no content; the first backend with non-null content
wins (its content is returned, later backends are not consulted, as
the call trace shows); and when both backends yield null content the
outcome is a 404 error, while an S3 resolution with empty-string
content is a success, not a 404. -/
theorem c4_document_fallback_order (env : Env) (id : String)
    (hid : id ≠ "") :
    (∀ c, (get_document_from_s3 env id).1 = some c →
       get_document_context env id =
         (.ok { content := c,
                metadata := (get_document_from_s3 env id).2.getD [] },
          [.s3Call id])) ∧
    ((get_document_from_s3 env id).1 = none →
       ∀ c, (get_document_from_database id).1 = some c →
         get_document_context env id =
           (.ok { content := c,
                  metadata := (get_document_from_database id).2.getD [] },
            [.s3Call id, .dbCall id])) ∧
    ((get_document_from_s3 env id).1 = none →
       (get_document_from_database id).1 = none →
       get_document_context env id =
         (.error { status := 404, detail := "Document not found: " ++ id },
          [.s3Call id, .dbCall id])) := by
  refine ⟨?_, ?_, ?_⟩
  · intro c h
    unfold get_document_context
    rw [if_neg hid]
    rcases hr : get_document_from_s3 env id with ⟨c1, m1⟩
    rw [hr] at h
    obtain rfl : c1 = some c := h
    rfl
  · intro hnone c h
    unfold get_document_context
    rw [if_neg hid]
    rcases hr : get_document_from_s3 env id with ⟨c1, m1⟩
    rw [hr] at hnone
    obtain rfl : c1 = none := hnone
    rcases hd : get_document_from_database id with ⟨c2, m2⟩
    rw [hd] at h
    obtain rfl : c2 = some c := h
    rfl
  · intro h1 h2
    unfold get_document_context
    rw [if_neg hid]
    rcases hr : get_document_from_s3 env id with ⟨c1, m1⟩
    rw [hr] at h1
    obtain rfl : c1 = none := h1
    rcases hd : get_document_from_database id with ⟨c2, m2⟩
    rw [hd] at h2
    obtain rfl : c2 = none := h2
    rfl

/-- Witness for claim C4: the S3-wins case on a stored text file, the
database-fallback case on the sample id, and the 404 case on an
unknown id. -/
theorem c4_document_fallback_order_witness :
    get_document_context envTxt "a.txt" =
      (.ok { content := "hi", metadata := s3Metadata "a.txt" objTxt },
       [.s3Call "a.txt"]) ∧
    get_document_context testEnv "test-document" =
      (.ok { content := "This is a sample document for testing purposes.\n\nIt contains multiple paragraphs and can be used to test the AI agent\x27s document handling capabilities.",
             metadata := [("id", .s "test-document"),
                          ("name", .s "Test Document"),
                          ("type", .s "text")] },
       [.s3Call "test-document", .dbCall "test-document"]) ∧
    get_document_context testEnv "missing-id" =
      (.error { status := 404,
                detail := "Document not found: missing-id" },
       [.s3Call "missing-id", .dbCall "missing-id"]) := by
  refine ⟨?_, ?_, ?_⟩
  · exact (c4_document_fallback_order envTxt "a.txt" (by decide)).1 "hi"
      (by decide)
  · exact ((c4_document_fallback_order testEnv "test-document"
      (by decide)).2.1 rfl _ rfl)
  · exact ((c4_document_fallback_order testEnv "missing-id"
      (by decide)).2.2 rfl rfl)

/-! ### Claim C5 -/

/-- Counterexample to claim C5 as stated: with a non-empty document
content and two prior messages the sequence has three elements, not
four: there is no second system message embedding the document; the
second element is already the first prior message, and the document
content was instead appended into the single leading system message. -/
theorem c5_document_not_second_message :
    (formatted_messages "SYS" none
      (some { content := "DOC", metadata := [] }) msgsAB).length = 3 ∧
    (formatted_messages "SYS" none
      (some { content := "DOC", metadata := [] }) msgsAB)[1]? =
      some { role := "user", content := "a" } ∧
    ("user" : String) ≠ "system" ∧
    (formatted_messages "SYS" none
      (some { content := "DOC", metadata := [] }) msgsAB).head? =
      some { role := "system",
             content := "SYS\n\nDocument content:\nDOC" } := by
  exact ⟨rfl, rfl, by decide, rfl⟩

/-- Claim C5 (amended): the conversation starts with exactly one
system message whose content is the agent instructions, then a
blank-line separator and the extra instruction when that is truthy,
then a Document content label and the resolved document content
whenever a document context is present (even when its content is
empty); no separate document message exists, and the remaining
elements are exactly the prior messages in their order with only role
and content extracted. -/
theorem c5_conversation_order_amended (instructions : String)
    (instruction : Option String) (docCtx : Option DocumentContext)
    (msgs : List Message) :
    (formatted_messages instructions instruction docCtx msgs).length
      = msgs.length + 1 ∧
    (formatted_messages instructions instruction docCtx msgs).head? =
      some { role := "system",
             content :=
               match docCtx with
               | some d =>
                   (if pyTruthy instruction then
                      instructions ++ "\n\n" ++ instruction.getD ""
                    else instructions) ++
                     "\n\nDocument content:\n" ++ d.content
               | none =>
                   if pyTruthy instruction then
                     instructions ++ "\n\n" ++ instruction.getD ""
                   else instructions } ∧
    (formatted_messages instructions instruction docCtx msgs).tail =
      msgs.map (fun m => { role := m.role, content := m.content }) := by
  refine ⟨by simp [formatted_messages], ?_, by simp [formatted_messages]⟩
  cases docCtx <;> rfl

/-! ### Claims C6 and C7: stream framing -/

/-- Whether a frame is a completion event. -/
def isCompleteEvent : Frame → Bool
  | .event _ _ _ b _ => b
  | .error _ => false

/-- The document metadata attached to a frame. -/
def frameDocument : Frame → Option Metadata
  | .event _ _ _ _ d => d
  | .error _ => none

theorem countP_const_false (l : List α) :
    l.countP (fun _ => false) = 0 := by
  induction l with
  | nil => rfl
  | cons x t ih => simp [List.countP_cons, ih]

theorem stream_generate_valid (env : Env) (req : AgentMessageRequest)
    (fs : FactoryState) (now : Nat)
    (hm : req.mode = "analyze" ∨ req.mode = "edit" ∨ req.mode = "create")
    (hdoc : ∀ e, (requestDocument env req).1 ≠ some (.error e)) :
    stream_generate env req fs now =
      stream_after_doc env req fs now
        (docCtxOf (requestDocument env req).1)
        (requestDocument env req).2 := by
  unfold stream_generate
  rw [if_neg (not_not_intro hm)]
  rcases hq : requestDocument env req with ⟨dr, tr⟩
  cases dr with
  | none => rfl
  | some x =>
    cases x with
    | ok d => rfl
    | error e =>
      have hdr : (requestDocument env req).1 = some (.error e) := by
        rw [hq]
      exact absurd hdr (hdoc e)

theorem stream_model_frames_success (env : Env)
    (req : AgentMessageRequest) (now : Nat)
    (docCtx : Option DocumentContext) (a : Agent)
    (hs : (env.agentRunStream (formatted_messages a.instructions
        req.instruction docCtx req.messages)).2 = none) :
    stream_model_frames env req now docCtx a =
      (env.agentRunStream (formatted_messages a.instructions
          req.instruction docCtx req.messages)).1.map
        (fun c => Frame.event (toString now) "assistant" c false none) ++
      [Frame.event (toString now) "assistant" "" true
        (docCtx.map (fun d => d.metadata))] := by
  unfold stream_model_frames
  rw [hs]

theorem stream_after_doc_agent (env : Env) (req : AgentMessageRequest)
    (fs : FactoryState) (now : Nat) (docCtx : Option DocumentContext)
    (tr0 : List Eff) (a : Agent)
    (ha : (get_agent req.mode fs).1 = some a) :
    stream_after_doc env req fs now docCtx tr0 =
      (stream_model_frames env req now docCtx a,
       (get_agent req.mode fs).2,
       (tr0 ++ [.registryGet req.mode]) ++ [.modelCall]) := by
  unfold stream_after_doc
  rw [ha]

theorem stream_after_doc_success (env : Env) (req : AgentMessageRequest)
    (fs : FactoryState) (now : Nat) (docCtx : Option DocumentContext)
    (tr0 : List Eff) (a : Agent)
    (ha : (get_agent req.mode fs).1 = some a)
    (hs : (env.agentRunStream (formatted_messages a.instructions
        req.instruction docCtx req.messages)).2 = none) :
    stream_after_doc env req fs now docCtx tr0 =
      ((env.agentRunStream (formatted_messages a.instructions
          req.instruction docCtx req.messages)).1.map
        (fun c => Frame.event (toString now) "assistant" c false none) ++
       [Frame.event (toString now) "assistant" "" true
         (docCtx.map (fun d => d.metadata))],
       (get_agent req.mode fs).2,
       (tr0 ++ [.registryGet req.mode]) ++ [.modelCall]) := by
  rw [stream_after_doc_agent env req fs now docCtx tr0 a ha,
    stream_model_frames_success env req now docCtx a hs]

/-- Claim C6 (amended): when the mode is valid, document resolution
does not fail, the registry yields an agent and the model stream ends
without error, the frame sequence is the chunk events followed by
exactly one completion event; that completion event carries the empty
string as content - not the accumulated content of the stream - and it
alone carries the resolved document metadata, while every earlier
event has is_complete false and no metadata. -/
theorem c6_stream_termination_amended (env : Env)
    (req : AgentMessageRequest) (fs : FactoryState) (now : Nat)
    (a : Agent)
    (hm : req.mode = "analyze" ∨ req.mode = "edit" ∨ req.mode = "create")
    (hdoc : ∀ e, (requestDocument env req).1 ≠ some (.error e))
    (ha : (get_agent req.mode fs).1 = some a)
    (hs : (env.agentRunStream (formatted_messages a.instructions
        req.instruction (docCtxOf (requestDocument env req).1)
        req.messages)).2 = none) :
    (stream_generate env req fs now).1 =
      (env.agentRunStream (formatted_messages a.instructions
          req.instruction (docCtxOf (requestDocument env req).1)
          req.messages)).1.map
        (fun c => Frame.event (toString now) "assistant" c false none) ++
      [Frame.event (toString now) "assistant" "" true
        ((docCtxOf (requestDocument env req).1).map
          (fun d => d.metadata))] ∧
    (stream_generate env req fs now).1.countP isCompleteEvent = 1 ∧
    ∀ f ∈ (stream_generate env req fs now).1.dropLast,
      isCompleteEvent f = false ∧ frameDocument f = none := by
  have hfr := stream_generate_valid env req fs now hm hdoc
  have hsucc := stream_after_doc_success env req fs now
    (docCtxOf (requestDocument env req).1) (requestDocument env req).2
    a ha hs
  rw [hfr, hsucc]
  refine ⟨rfl, ?_, ?_⟩
  · simp only [List.countP_append, List.countP_map]
    have h0 : (isCompleteEvent ∘ fun c =>
        Frame.event (toString now) "assistant" c false none) =
        fun _ => false := by
      funext c
      rfl
    rw [h0, countP_const_false]
    rfl
  · rw [List.dropLast_concat]
    intro f hf
    obtain ⟨x, _, rfl⟩ := List.mem_map.mp hf
    exact ⟨rfl, rfl⟩

/-- Witness for claim C6: the concrete stream with one chunk. -/
theorem c6_stream_termination_witness :
    (stream_generate testEnv reqEdit initState 42).1 =
      [Frame.event "42" "assistant" "Hello" false none,
       Frame.event "42" "assistant" "" true none] ∧
    (stream_generate testEnv reqEdit initState 42).1.countP
      isCompleteEvent = 1 := by
  have h := c6_stream_termination_amended testEnv reqEdit initState 42
    (create_editor_agent 0) (Or.inr (Or.inl rfl))
    (by intro e he; simp [requestDocument, reqEdit, pyTruthy] at he)
    rfl rfl
  exact ⟨h.1.trans rfl, h.2.1⟩

/-- Counterexample to claim C6 as stated: in a stream whose chunks
accumulate to the content Hello, the terminal completion event carries
the empty string, not the accumulated content of the response. -/
theorem c6_final_event_has_empty_content :
    (stream_generate testEnv reqEdit initState 42).1.getLast? =
      some (Frame.event "42" "assistant" "" true none) ∧
    String.join ((stream_generate testEnv reqEdit initState
      42).1.dropLast.map (fun f =>
        match f with
        | .event _ _ c _ _ => c
        | .error _ => "")) = "Hello" ∧
    ("" : String) ≠ "Hello" := by
  exact ⟨rfl, rfl, by decide⟩

theorem stream_model_frames_id (env : Env) (req : AgentMessageRequest)
    (now : Nat) (docCtx : Option DocumentContext) (agent : Agent)
    (i r c : String) (b : Bool) (d : Option Metadata)
    (hmem : Frame.event i r c b d ∈
      stream_model_frames env req now docCtx agent) :
    i = toString now := by
  unfold stream_model_frames at hmem
  rcases hrs : (env.agentRunStream (formatted_messages agent.instructions
      req.instruction docCtx req.messages)).2 with _ | e <;>
    rw [hrs] at hmem <;>
    simp only [List.mem_append, List.mem_map, List.mem_singleton]
      at hmem <;>
    rcases hmem with ⟨x, _, he⟩ | he <;>
    first
      | exact (Frame.event.inj he).1.symm
      | exact (Frame.event.inj he).1
      | cases he

theorem stream_after_doc_id (env : Env) (req : AgentMessageRequest)
    (fs : FactoryState) (now : Nat) (docCtx : Option DocumentContext)
    (tr0 : List Eff) (i r c : String) (b : Bool) (d : Option Metadata)
    (hmem : Frame.event i r c b d ∈
      (stream_after_doc env req fs now docCtx tr0).1) :
    i = toString now := by
  unfold stream_after_doc at hmem
  rcases hga : (get_agent req.mode fs).1 with _ | a <;>
    rw [hga] at hmem <;> simp only [] at hmem
  · simp at hmem
  · exact stream_model_frames_id env req now docCtx a i r c b d hmem

/-- Claim C7: every event frame of one streamed response carries the
message id assigned at stream start (the millisecond timestamp taken
once before the loop), so the id is stable across all events of the
stream. -/
theorem c7_stream_id_stable (env : Env) (req : AgentMessageRequest)
    (fs : FactoryState) (now : Nat) (i r c : String) (b : Bool)
    (d : Option Metadata)
    (hmem : Frame.event i r c b d ∈ (stream_generate env req fs now).1) :
    i = toString now := by
  unfold stream_generate at hmem
  by_cases hm : req.mode = "analyze" ∨ req.mode = "edit" ∨
      req.mode = "create"
  · rw [if_neg (not_not_intro hm)] at hmem
    rcases hq : requestDocument env req with ⟨dr, tr⟩
    rw [hq] at hmem
    cases dr with
    | none =>
      exact stream_after_doc_id env req fs now (docCtxOf none) tr
        i r c b d hmem
    | some x =>
      cases x with
      | ok dd =>
        exact stream_after_doc_id env req fs now (docCtxOf (some (.ok dd)))
          tr i r c b d hmem
      | error e => simp at hmem
  · rw [if_pos hm] at hmem
    simp at hmem

/-- Witness for claim C7: the chunk event of the concrete stream is in
the frame list and carries the stream id. -/
theorem c7_stream_id_stable_witness :
    Frame.event "42" "assistant" "Hello" false none ∈
      (stream_generate testEnv reqEdit initState 42).1 ∧
    ("42" : String) = toString 42 := by
  have hmem : Frame.event "42" "assistant" "Hello" false none ∈
      (stream_generate testEnv reqEdit initState 42).1 := by
    decide
  exact ⟨hmem, c7_stream_id_stable testEnv reqEdit initState 42
    "42" "assistant" "Hello" false none hmem⟩

/-! ### Lemmas about the S3 handler branches -/

theorem get_document_from_s3_no_bucket (env : Env) (key : String)
    (hb : env.bucketConfigured = false) :
    get_document_from_s3 env key = (none, none) := by
  unfold get_document_from_s3
  rw [if_neg (by simp [hb])]

theorem get_document_from_s3_store_error (env : Env) (key : String)
    (hg : env.s3Get key = none) :
    get_document_from_s3 env key = (none, none) := by
  unfold get_document_from_s3
  cases hb : env.bucketConfigured
  · rw [if_neg (by simp)]
  · rw [if_pos rfl, hg]

theorem get_document_from_s3_fetched (env : Env) (key : String)
    (obj : S3Object) (hb : env.bucketConfigured = true)
    (hg : env.s3Get key = some obj) :
    get_document_from_s3 env key = s3ResultOf env key obj := by
  unfold get_document_from_s3
  rw [if_pos hb, hg]

theorem s3ResultOf_some (env : Env) (key : String) (obj : S3Object)
    (t : String) (ht : s3ExtractText env key obj = some t) :
    s3ResultOf env key obj = (some t, some (s3Metadata key obj)) := by
  unfold s3ResultOf
  rw [ht]

theorem s3ResultOf_none (env : Env) (key : String) (obj : S3Object)
    (ht : s3ExtractText env key obj = none) :
    s3ResultOf env key obj = (none, none) := by
  unfold s3ResultOf
  rw [ht]

theorem s3ExtractText_pdf (env : Env) (key : String) (obj : S3Object)
    (h1 : obj.contentType = "application/pdf" ∨
      pyEndsWith (pyLower key) ".pdf" = true) :
    s3ExtractText env key obj =
      some (extract_text_from_pdf env obj.body) := by
  unfold s3ExtractText
  rw [if_pos h1]

theorem s3ExtractText_docx (env : Env) (key : String) (obj : S3Object)
    (h1 : ¬ (obj.contentType = "application/pdf" ∨
      pyEndsWith (pyLower key) ".pdf" = true))
    (h2 : obj.contentType = "application/vnd.openxmlformats-officedocument.wordprocessingml.document" ∨
      pyEndsWith (pyLower key) ".docx" = true) :
    s3ExtractText env key obj =
      some (extract_text_from_docx env obj.body) := by
  unfold s3ExtractText
  rw [if_neg h1, if_pos h2]

theorem s3ExtractText_txt (env : Env) (key : String) (obj : S3Object)
    (h1 : ¬ (obj.contentType = "application/pdf" ∨
      pyEndsWith (pyLower key) ".pdf" = true))
    (h2 : ¬ (obj.contentType = "application/vnd.openxmlformats-officedocument.wordprocessingml.document" ∨
      pyEndsWith (pyLower key) ".docx" = true))
    (h3 : obj.contentType = "text/plain" ∨
      pyEndsWith (pyLower key) ".txt" = true) :
    s3ExtractText env key obj = env.decodeUtf8 obj.body := by
  unfold s3ExtractText
  rw [if_neg h1, if_neg h2, if_pos h3]

theorem s3ExtractText_json (env : Env) (key : String) (obj : S3Object)
    (h1 : ¬ (obj.contentType = "application/pdf" ∨
      pyEndsWith (pyLower key) ".pdf" = true))
    (h2 : ¬ (obj.contentType = "application/vnd.openxmlformats-officedocument.wordprocessingml.document" ∨
      pyEndsWith (pyLower key) ".docx" = true))
    (h3 : ¬ (obj.contentType = "text/plain" ∨
      pyEndsWith (pyLower key) ".txt" = true))
    (h4 : obj.contentType = "application/json" ∨
      pyEndsWith (pyLower key) ".json" = true) :
    s3ExtractText env key obj = jsonExtract env obj.body := by
  unfold s3ExtractText
  rw [if_neg h1, if_neg h2, if_neg h3, if_pos h4]

theorem s3ExtractText_fallback (env : Env) (key : String)
    (obj : S3Object)
    (h1 : ¬ (obj.contentType = "application/pdf" ∨
      pyEndsWith (pyLower key) ".pdf" = true))
    (h2 : ¬ (obj.contentType = "application/vnd.openxmlformats-officedocument.wordprocessingml.document" ∨
      pyEndsWith (pyLower key) ".docx" = true))
    (h3 : ¬ (obj.contentType = "text/plain" ∨
      pyEndsWith (pyLower key) ".txt" = true))
    (h4 : ¬ (obj.contentType = "application/json" ∨
      pyEndsWith (pyLower key) ".json" = true)) :
    s3ExtractText env key obj = env.decodeUtf8 obj.body := by
  unfold s3ExtractText
  rw [if_neg h1, if_neg h2, if_neg h3, if_neg h4]

theorem extract_text_from_pdf_err (env : Env) (b : Bytes)
    (hf : env.fitzPdfPages b = none) :
    extract_text_from_pdf env b =
      "Error extracting text from PDF document" := by
  unfold extract_text_from_pdf
  rw [hf]

theorem extract_text_from_docx_err (env : Env) (b : Bytes)
    (hf : env.docxDoc b = none) :
    extract_text_from_docx env b =
      "Error extracting text from DOCX document" := by
  unfold extract_text_from_docx
  rw [hf]

theorem jsonExtract_decoded (env : Env) (b : Bytes) (s : String)
    (hd : env.decodeUtf8 b = some s) :
    jsonExtract env b = jsonExtractParsed env s := by
  unfold jsonExtract
  rw [hd]

theorem jsonExtractParsed_some (env : Env) (s : String) (v : Jv)
    (hp : env.jsonParse s = some v) :
    jsonExtractParsed env s = some (jsonValueText v) := by
  unfold jsonExtractParsed
  rw [hp]

theorem jsonValueText_no_content_key (v : Jv)
    (hnc : ∀ kvs, v = .obj kvs → alookup "content" kvs = none) :
    jsonValueText v = jsonDumps2 0 v := by
  cases v with
  | obj kvs =>
    show (match alookup "content" kvs with
          | some cv => jvContentText cv
          | none => jsonDumps2 0 (Jv.obj kvs)) = _
    rw [hnc kvs rfl]
  | str s => rfl
  | num n => rfl
  | bool b => rfl
  | null => rfl
  | arr xs => rfl

/-! ### Claims C8, C9, C10 -/

/-- The baseline environment with no bucket configured. -/
def envNoBucket : Env := { testEnv with bucketConfigured := false }

/-- A DOCX object whose extraction will fail in testEnv. -/
def objDocx : S3Object :=
  { contentType := "application/vnd.openxmlformats-officedocument.wordprocessingml.document",
    body := [3, 4], contentLength := 2, lastModified := none }

/-- An environment whose S3 holds objDocx under d.docx, with
python-docx raising on it. -/
def envDocx : Env :=
  { testEnv with s3Get := fun k => if k = "d.docx" then some objDocx
                                   else none }

/-- A text object with undecodable bytes. -/
def objTxtBad : S3Object :=
  { contentType := "text/plain", body := [255], contentLength := 1,
    lastModified := none }

/-- An environment whose S3 holds objTxtBad under b.txt; decoding
raises UnicodeDecodeError. -/
def envTxtBad : Env :=
  { testEnv with s3Get := fun k => if k = "b.txt" then some objTxtBad
                                   else none }

/-- An object of unrecognized type with undecodable bytes. -/
def objBin : S3Object :=
  { contentType := "application/octet-stream", body := [0],
    contentLength := 1, lastModified := none }

/-- An environment whose S3 holds objBin under b.bin. -/
def envBin : Env :=
  { testEnv with s3Get := fun k => if k = "b.bin" then some objBin
                                   else none }

/-- A JSON object stored under data.json. -/
def objJson : S3Object :=
  { contentType := "application/json", body := [123], contentLength := 1,
    lastModified := none }

/-- An environment whose S3 holds objJson under data.json; its body
decodes and parses to a mapping without a content key. -/
def envJson : Env :=
  { testEnv with
    s3Get := fun k => if k = "data.json" then some objJson else none,
    decodeUtf8 := fun b => if b = ([123] : List Nat) then some "raw"
                           else none,
    jsonParse := fun s => if s = "raw" then some (.obj [("a", .num 1)])
                          else none }

/-- Counterexample to claim C8 as stated: a failure inside PDF
extraction is caught, but the resolution then succeeds with a fixed
placeholder string as content and full metadata - it is not converted
to the unresolved (null, null) outcome. -/
theorem c8_pdf_failure_yields_placeholder_not_null :
    get_document_from_s3 envPdf "doc.pdf" =
      (some "Error extracting text from PDF document",
       some (s3Metadata "doc.pdf" objPdf)) ∧
    (some "Error extracting text from PDF document",
      some (s3Metadata "doc.pdf" objPdf)) ≠
      ((none, none) : Option String × Option Metadata) := by
  exact ⟨rfl, by decide⟩

/-- Claim C8 (amended): every error during document resolution is
caught inside the resolver and none propagates; a storage-backend
error, a missing bucket configuration, a text-decode failure and a
fallback-decode failure all degrade to the unresolved (null, null)
outcome, but a failure inside PDF or DOCX extraction instead yields a
fixed placeholder error string as successfully resolved content with
full metadata. -/
theorem c8_error_containment_amended (env : Env) (key : String) :
    (env.s3Get key = none → get_document_from_s3 env key = (none, none)) ∧
    (env.bucketConfigured = false →
      get_document_from_s3 env key = (none, none)) ∧
    (∀ obj, env.bucketConfigured = true → env.s3Get key = some obj →
      (obj.contentType = "application/pdf" ∨
        pyEndsWith (pyLower key) ".pdf" = true) →
      env.fitzPdfPages obj.body = none →
      get_document_from_s3 env key =
        (some "Error extracting text from PDF document",
         some (s3Metadata key obj))) ∧
    (∀ obj, env.bucketConfigured = true → env.s3Get key = some obj →
      ¬ (obj.contentType = "application/pdf" ∨
        pyEndsWith (pyLower key) ".pdf" = true) →
      (obj.contentType = "application/vnd.openxmlformats-officedocument.wordprocessingml.document" ∨
        pyEndsWith (pyLower key) ".docx" = true) →
      env.docxDoc obj.body = none →
      get_document_from_s3 env key =
        (some "Error extracting text from DOCX document",
         some (s3Metadata key obj))) ∧
    (∀ obj, env.bucketConfigured = true → env.s3Get key = some obj →
      ¬ (obj.contentType = "application/pdf" ∨
        pyEndsWith (pyLower key) ".pdf" = true) →
      ¬ (obj.contentType = "application/vnd.openxmlformats-officedocument.wordprocessingml.document" ∨
        pyEndsWith (pyLower key) ".docx" = true) →
      (obj.contentType = "text/plain" ∨
        pyEndsWith (pyLower key) ".txt" = true) →
      env.decodeUtf8 obj.body = none →
      get_document_from_s3 env key = (none, none)) ∧
    (∀ obj, env.bucketConfigured = true → env.s3Get key = some obj →
      ¬ (obj.contentType = "application/pdf" ∨
        pyEndsWith (pyLower key) ".pdf" = true) →
      ¬ (obj.contentType = "application/vnd.openxmlformats-officedocument.wordprocessingml.document" ∨
        pyEndsWith (pyLower key) ".docx" = true) →
      ¬ (obj.contentType = "text/plain" ∨
        pyEndsWith (pyLower key) ".txt" = true) →
      ¬ (obj.contentType = "application/json" ∨
        pyEndsWith (pyLower key) ".json" = true) →
      env.decodeUtf8 obj.body = none →
      get_document_from_s3 env key = (none, none)) := by
  refine ⟨?_, ?_, ?_, ?_, ?_, ?_⟩
  · intro hg
    exact get_document_from_s3_store_error env key hg
  · intro hb
    exact get_document_from_s3_no_bucket env key hb
  · intro obj hb hg h1 hf
    rw [get_document_from_s3_fetched env key obj hb hg,
      s3ResultOf_some env key obj _
        ((s3ExtractText_pdf env key obj h1).trans
          (by rw [extract_text_from_pdf_err env obj.body hf]))]
  · intro obj hb hg h1 h2 hf
    rw [get_document_from_s3_fetched env key obj hb hg,
      s3ResultOf_some env key obj _
        ((s3ExtractText_docx env key obj h1 h2).trans
          (by rw [extract_text_from_docx_err env obj.body hf]))]
  · intro obj hb hg h1 h2 h3 hd
    rw [get_document_from_s3_fetched env key obj hb hg,
      s3ResultOf_none env key obj
        ((s3ExtractText_txt env key obj h1 h2 h3).trans hd)]
  · intro obj hb hg h1 h2 h3 h4 hd
    rw [get_document_from_s3_fetched env key obj hb hg,
      s3ResultOf_none env key obj
        ((s3ExtractText_fallback env key obj h1 h2 h3 h4).trans hd)]

/-- Witness for claim C8: one concrete input for each degradation
path. -/
theorem c8_error_containment_witness :
    get_document_from_s3 testEnv "missing" = (none, none) ∧
    get_document_from_s3 envNoBucket "a.txt" = (none, none) ∧
    get_document_from_s3 envPdf "doc.pdf" =
      (some "Error extracting text from PDF document",
       some (s3Metadata "doc.pdf" objPdf)) ∧
    get_document_from_s3 envDocx "d.docx" =
      (some "Error extracting text from DOCX document",
       some (s3Metadata "d.docx" objDocx)) ∧
    get_document_from_s3 envTxtBad "b.txt" = (none, none) ∧
    get_document_from_s3 envBin "b.bin" = (none, none) := by
  refine ⟨?_, ?_, ?_, ?_, ?_, ?_⟩
  · exact (c8_error_containment_amended testEnv "missing").1 rfl
  · exact (c8_error_containment_amended envNoBucket "a.txt").2.1 rfl
  · exact (c8_error_containment_amended envPdf "doc.pdf").2.2.1 objPdf
      rfl rfl (Or.inl rfl) rfl
  · exact (c8_error_containment_amended envDocx "d.docx").2.2.2.1 objDocx
      rfl rfl (by decide) (Or.inl rfl) rfl
  · exact (c8_error_containment_amended envTxtBad "b.txt").2.2.2.2.1
      objTxtBad rfl rfl (by decide) (by decide) (Or.inl rfl) rfl
  · exact (c8_error_containment_amended envBin "b.bin").2.2.2.2.2 objBin
      rfl rfl (by decide) (by decide) (by decide) (by decide) rfl

/-- Counterexample to claim C9 as stated: the database backend
resolves the sample document successfully, yet its metadata mapping
carries only id, name and type - neither content type, nor size, nor
a last-modified timestamp, nor a storage key, nor a derived
filename. -/
theorem c9_database_metadata_lacks_required_keys :
    get_document_from_database "test-document" =
      (some "This is a sample document for testing purposes.\n\nIt contains multiple paragraphs and can be used to test the AI agent\x27s document handling capabilities.",
       some [("id", .s "test-document"), ("name", .s "Test Document"),
             ("type", .s "text")]) ∧
    alookup "content_type" [("id", MVal.s "test-document"),
      ("name", MVal.s "Test Document"), ("type", MVal.s "text")] = none ∧
    alookup "size" [("id", MVal.s "test-document"),
      ("name", MVal.s "Test Document"), ("type", MVal.s "text")] = none ∧
    alookup "filename" [("id", MVal.s "test-document"),
      ("name", MVal.s "Test Document"), ("type", MVal.s "text")]
      = none := by
  exact ⟨rfl, rfl, rfl, rfl⟩

/-- Claim C9 (amended): every successful S3 resolution returns the
metadata mapping with content type, byte size, a nullable
last-modified timestamp, the storage key and a filename derived as
the final path segment of the key; the database backend however
returns only an id/name/type mapping without any of those keys. -/
theorem c9_resolution_metadata_amended (env : Env) (key : String)
    (obj : S3Object) (t : String) (hb : env.bucketConfigured = true)
    (hg : env.s3Get key = some obj)
    (ht : s3ExtractText env key obj = some t) :
    get_document_from_s3 env key = (some t, some (s3Metadata key obj)) ∧
    alookup "content_type" (s3Metadata key obj)
      = some (.s obj.contentType) ∧
    alookup "size" (s3Metadata key obj) = some (.n obj.contentLength) ∧
    (alookup "last_modified" (s3Metadata key obj)).isSome = true ∧
    alookup "s3_key" (s3Metadata key obj) = some (.s key) ∧
    alookup "filename" (s3Metadata key obj)
      = some (.s (derivedFilename key)) ∧
    (∀ id c m, get_document_from_database id = (some c, some m) →
       m = [("id", .s id), ("name", .s "Test Document"),
            ("type", .s "text")] ∧
       alookup "content_type" m = none ∧
       alookup "filename" m = none) := by
  refine ⟨?_, rfl, rfl, ?_, rfl, rfl, ?_⟩
  · rw [get_document_from_s3_fetched env key obj hb hg,
      s3ResultOf_some env key obj t ht]
  · cases obj.lastModified <;> rfl
  · intro id c m h
    unfold get_document_from_database at h
    by_cases hid : id = "test-document"
    · rw [if_pos hid] at h
      injection h with h1 h2
      injection h2 with h3
      subst hid
      exact ⟨h3.symm, by rw [← h3]; rfl, by rw [← h3]; rfl⟩
    · rw [if_neg hid] at h
      injection h with h1 h2
      exact Option.noConfusion h1

/-- Witness for claim C9 at the stored text object and the sample
database document. -/
theorem c9_resolution_metadata_witness :
    get_document_from_s3 envTxt "a.txt" =
      (some "hi", some (s3Metadata "a.txt" objTxt)) ∧
    alookup "filename" (s3Metadata "a.txt" objTxt)
      = some (.s (derivedFilename "a.txt")) ∧
    derivedFilename "docs/2024/a.txt" = "a.txt" := by
  have h := c9_resolution_metadata_amended envTxt "a.txt" objTxt "hi"
    rfl rfl (by decide)
  exact ⟨h.1, h.2.2.2.2.2.1, by decide⟩

/-- Claim C10: a stored object dispatched to the JSON branch whose
parsed value is not a mapping with a content key resolves
successfully, with the whole JSON value re-serialized by
json.dumps(..., indent=2) as the content. -/
theorem c10_json_without_content_field (env : Env) (key : String)
    (obj : S3Object) (s : String) (v : Jv)
    (hb : env.bucketConfigured = true)
    (hg : env.s3Get key = some obj)
    (h1 : ¬ (obj.contentType = "application/pdf" ∨
      pyEndsWith (pyLower key) ".pdf" = true))
    (h2 : ¬ (obj.contentType = "application/vnd.openxmlformats-officedocument.wordprocessingml.document" ∨
      pyEndsWith (pyLower key) ".docx" = true))
    (h3 : ¬ (obj.contentType = "text/plain" ∨
      pyEndsWith (pyLower key) ".txt" = true))
    (h4 : obj.contentType = "application/json" ∨
      pyEndsWith (pyLower key) ".json" = true)
    (hd : env.decodeUtf8 obj.body = some s)
    (hp : env.jsonParse s = some v)
    (hnc : ∀ kvs, v = .obj kvs → alookup "content" kvs = none) :
    get_document_from_s3 env key =
      (some (jsonDumps2 0 v), some (s3Metadata key obj)) := by
  have hex : s3ExtractText env key obj = some (jsonDumps2 0 v) := by
    rw [s3ExtractText_json env key obj h1 h2 h3 h4,
      jsonExtract_decoded env obj.body s hd,
      jsonExtractParsed_some env s v hp,
      jsonValueText_no_content_key v hnc]
  rw [get_document_from_s3_fetched env key obj hb hg,
    s3ResultOf_some env key obj _ hex]

/-- Witness for claim C10: the concrete mapping without a content key
re-serializes with two-space indentation. -/
theorem c10_json_without_content_field_witness :
    get_document_from_s3 envJson "data.json" =
      (some (jsonDumps2 0 (.obj [("a", .num 1)])),
       some (s3Metadata "data.json" objJson)) ∧
    jsonDumps2 0 (.obj [("a", .num 1)]) =
      "\x7b\n  \"a\": 1\n\x7d" := by
  refine ⟨?_, rfl⟩
  exact c10_json_without_content_field envJson "data.json" objJson
    "raw" (.obj [("a", .num 1)]) rfl rfl (by decide) (by decide)
    (by decide) (Or.inl rfl) rfl rfl
    (by intro kvs h; cases h; rfl)

end Resuming
